import Mathlib

/-!
Shallow embedding of the turn-orchestration core of the multi-modal
voice/text assistant: the push-to-talk recorder (`src/audio/recorder.py`),
the intent-classifier post-processing (`src/agent/intent_classifier.py`),
the track validation of the assignments task (`src/agent/crew_agent.py`),
and the orchestrator state machine, metrics and turn handlers
(`src/orchestrator.py`).  External collaborators (the OpenAI call, the
Whisper transcriber, the TTS engine, the crew executor, terminal I/O) are
modelled as oracle inputs; the control flow around them is translated
line by line from the source.
-/

namespace MMA

/-- Result of `IntentClassifier.classify`: the JSON fields after the
`setdefault` normalisation (`intent`, `params`, `confidence`,
`needs_clarification`, `clarification_question`). -/
structure Classification where
  intent : String
  params : List (String × String)
  confidence : ℚ
  needs_clarification : Bool
  clarification_question : String
deriving Repr, DecidableEq

/-- Dictionary lookup on the `params` mapping (`params.get(k)` /
`k in params`). -/
def getParam (ps : List (String × String)) (k : String) : Option String :=
  (ps.find? (fun p => p.1 = k)).map Prod.snd

/-- Dictionary update `params[k] = v`. -/
def setParam (ps : List (String × String)) (k v : String) :
    List (String × String) :=
  (k, v) :: ps.filter (fun p => ¬ p.1 = k)

/-- Python `str.strip()`: drop leading and trailing whitespace
(structurally recursive so that proofs can evaluate it). -/
def pyStrip (s : String) : String :=
  ⟨((s.data.dropWhile Char.isWhitespace).reverse.dropWhile
      Char.isWhitespace).reverse⟩

/-- Python `str.lower()` (structurally recursive). -/
def pyLower (s : String) : String :=
  ⟨s.data.map Char.toLower⟩

/-- The five recognised intents (`IntentClassifier.INTENTS`). -/
def recognizedIntents : List String :=
  ["next_class", "topic_research", "weekly_plan", "assignments", "help"]

/-- Post-validation in `IntentClassifier.classify` (lines 85-89): an
intent outside `INTENTS` is replaced by `help` with confidence 0.5. -/
def validateIntent (r : Classification) : Classification :=
  if r.intent ∈ recognizedIntents then r
  else { r with intent := "help", confidence := 1/2 }

/-- The hard-coded fallback `IntentClassifier.classify` returns from its
`except` clause on any internal failure. -/
def classifyFallback : Classification :=
  { intent := "help", params := [], confidence := 0,
    needs_clarification := false, clarification_question := "" }

/-- `IntentClassifier.classify`: the model call is an oracle
(`Except` models the `try`); on success the result is validated, on any
exception the fallback is returned. -/
def classify (raw : Except String Classification) : Classification :=
  match raw with
  | .ok r => validateIntent r
  | .error _ => classifyFallback

/-- The concrete agent-task invocation chosen by
`classify_and_execute_intent`, with the arguments the orchestrator
passes. -/
inductive TaskCall where
  | nextClass
  | researchTopic (topic : String)
  | weeklyPlan
  | assignments (track : String)
deriving Repr, DecidableEq

/-- Track validation inside `VoiceCourseAgent.track_assignments`
(crew_agent.py lines 234-236): a track outside `['Tech', 'Analyst']`
is replaced by `'Tech'`. -/
def trackAssignmentsTrack (track : String) : String :=
  if track = "Tech" ∨ track = "Analyst" then track else "Tech"

/-- The routing decision made by the front half of
`classify_and_execute_intent`, before any agent task runs. -/
inductive RouteOutcome where
  | helpShown (explicitHelp : Bool)
  | clarificationShown (question : String)
  | topicPromptAborted
  | dispatch (task : TaskCall)
deriving Repr, DecidableEq

/-- Routing logic of `classify_and_execute_intent`
(orchestrator.py lines 152-196), given the classification and the answer
the user would give to `ask_for_parameter('topic')` (`""` models an
empty, falsy reply). -/
def routeIntent (userText : String) (c : Classification)
    (askTopicAnswer : String) : RouteOutcome :=
  if c.intent = "help" then
    .helpShown (pyLower userText = "help" ∨ pyLower userText = "/help" ∨
      pyLower userText = "menu")
  else
    let step : RouteOutcome ⊕ List (String × String) :=
      if c.needs_clarification then
        if ¬ c.clarification_question = "" then
          .inl (.clarificationShown c.clarification_question)
        else if c.intent = "topic_research" ∧ getParam c.params "topic" = none then
          if askTopicAnswer = "" then .inl .topicPromptAborted
          else .inr (setParam c.params "topic" askTopicAnswer)
        else .inr c.params
      else .inr c.params
    match step with
    | .inl o => o
    | .inr params =>
        .dispatch (
          if c.intent = "next_class" then .nextClass
          else if c.intent = "topic_research" then
            .researchTopic ((getParam params "topic").getD "AI Agents")
          else if c.intent = "weekly_plan" then .weeklyPlan
          else if c.intent = "assignments" then
            .assignments ((getParam params "track").getD "Tech")
          else .nextClass)

/-- The orchestrator's metrics dictionary. Stage times are modelled as
rationals (exact arithmetic standing in for Python floats). -/
structure Metrics where
  total_turns : ℕ
  avg_stt_time : ℚ
  avg_agent_time : ℚ
  avg_tts_time : ℚ
  avg_total_time : ℚ
  errors : ℕ
deriving Repr, DecidableEq

/-- The metrics dictionary as initialised in `__init__`. -/
def initMetrics : Metrics :=
  { total_turns := 0, avg_stt_time := 0, avg_agent_time := 0,
    avg_tts_time := 0, avg_total_time := 0, errors := 0 }

/-- `_update_metrics` (orchestrator.py lines 313-330): increment
`total_turns` and fold each stage sample into its running average. -/
def updateMetrics (m : Metrics) (stt agent tts total : ℚ) : Metrics :=
  let n : ℚ := m.total_turns
  { m with
    total_turns := m.total_turns + 1
    avg_stt_time := (m.avg_stt_time * n + stt) / (n + 1)
    avg_agent_time := (m.avg_agent_time * n + agent) / (n + 1)
    avg_tts_time := (m.avg_tts_time * n + tts) / (n + 1)
    avg_total_time := (m.avg_total_time * n + total) / (n + 1) }

/-- `handle_error` (orchestrator.py lines 302-311): increment the error
counter (the state is reset to `IDLE` by the caller model). -/
def handleError (m : Metrics) : Metrics :=
  { m with errors := m.errors + 1 }

/-- The orchestrator's `State` enum. -/
inductive State where
  | idle | recording | processing | thinking | speaking | error | exit
deriving Repr, DecidableEq

/-- Observable actions of a turn: collaborator invocations and
user-visible output, in the order they happen. -/
inductive Event where
  | calledRecord
  | calledTranscribe
  | calledClassify
  | calledExecute (t : TaskCall)
  | showedTranscription (text : String)
  | showedHelp (explicitHelp : Bool)
  | showedClarification (q : String)
  | showedResponse (text : String)
  | spoke (text : String)
  | showedError (msg : String)
deriving Repr, DecidableEq

/-- Oracle environment for one turn: what each external collaborator
would return if invoked (`Except.error` models the call raising). -/
structure Env where
  classifierRaw : Except String Classification
  askTopicAnswer : String
  exec : TaskCall → Except String String
  transcribeResult : Except String String
  speakResult : Except String Unit
  recordAgain : Option ℕ
  sttTime : ℚ
  agentTime : ℚ
  ttsTime : ℚ
  totalTime : ℚ

/-- `classify_and_execute_intent` (orchestrator.py lines 135-203):
classify, route, then run the chosen agent task inside a `try` that
converts any exception into a shown error and a `("", 0.0)` result.
Returns `(response_text, agent_time)` plus the events. -/
def classifyAndExecuteIntent (env : Env) (userText : String) :
    (String × ℚ) × List Event :=
  let c := classify env.classifierRaw
  match routeIntent userText c env.askTopicAnswer with
  | .helpShown explicitHelp => (("", 0), [.calledClassify, .showedHelp explicitHelp])
  | .clarificationShown q => (("", 0), [.calledClassify, .showedClarification q])
  | .topicPromptAborted => (("", 0), [.calledClassify])
  | .dispatch t =>
      match env.exec t with
      | .ok resp => ((resp, env.agentTime), [.calledClassify, .calledExecute t])
      | .error e =>
          (("", 0),
           [.calledClassify, .calledExecute t,
            .showedError ("Error executing task: " ++ e)])

/-- Result of one turn handler: the metrics dictionary, the
orchestrator state at the moment the handler returns or raises, the
events, and the exception that escaped the handler if any. -/
structure TurnResult where
  metrics : Metrics
  state : State
  events : List Event
  exn : Option String
deriving Repr, DecidableEq

/-- `handle_text_turn` (orchestrator.py lines 205-233), entered with
state `IDLE`.  Empty or whitespace-only input is reported and the
handler returns before any classification; otherwise the intent is
classified and executed and `_update_metrics(0, agent_time, 0, total)`
runs. -/
def handleTextTurn (env : Env) (m : Metrics) (userText : String) :
    TurnResult :=
  if pyStrip userText = "" then
    { metrics := m, state := .idle,
      events := [.showedError "Empty input. Please try again."], exn := none }
  else
    let r := classifyAndExecuteIntent env userText
    let evs :=
      if ¬ r.1.1 = "" then r.2 ++ [.showedResponse r.1.1] else r.2
    { metrics := updateMetrics m 0 r.1.2 0 env.totalTime,
      state := .thinking, events := evs, exn := none }

/-- Body of `handle_voice_turn` from the `len(audio)` check on
(orchestrator.py lines 254-296), after the `audio` variable is
resolved: `audio = none` is Python `None`, on which `len(audio)`
raises `TypeError` (the `except` clause sets state `ERROR` and
re-raises).  `st0`/`evs0` carry the state and events accumulated
before the check. -/
def handleVoiceRest (env : Env) (m : Metrics) (audio : Option ℕ)
    (st0 : State) (evs0 : List Event) : TurnResult :=
  match audio with
  | none =>
      { metrics := m, state := .error, events := evs0,
        exn := some "TypeError: object of type NoneType has no len()" }
  | some len =>
      if len = 0 then
        { metrics := m, state := st0,
          events := evs0 ++ [.showedError "No audio recorded. Please try again."],
          exn := none }
      else
        match env.transcribeResult with
        | .error e =>
            { metrics := m, state := .error,
              events := evs0 ++ [.calledTranscribe], exn := some e }
        | .ok text =>
            if pyStrip text = "" then
              { metrics := m, state := .processing,
                events := evs0 ++
                  [.calledTranscribe, .showedError "Could not understand speech. Please try again."],
                exn := none }
            else
              let r := classifyAndExecuteIntent env text
              let evs1 := evs0 ++ [.calledTranscribe, .showedTranscription text] ++ r.2
              if ¬ r.1.1 = "" then
                match env.speakResult with
                | .error e =>
                    { metrics := m, state := .error,
                      events := evs1 ++ [.showedResponse r.1.1], exn := some e }
                | .ok _ =>
                    { metrics := updateMetrics m env.sttTime r.1.2 env.ttsTime env.totalTime,
                      state := .speaking,
                      events := evs1 ++ [.showedResponse r.1.1, .spoke r.1.1],
                      exn := none }
              else
                { metrics := updateMetrics m env.sttTime r.1.2 0 env.totalTime,
                  state := .thinking, events := evs1, exn := none }

/-- `handle_voice_turn` (orchestrator.py lines 235-300), entered with
state `IDLE`.  `audioData` is the Python `audio_data` argument: `none`
is Python `None` (either "not provided" or a cancelled capture — the
code cannot tell them apart), in which case the state is set to
`RECORDING` and the recorder is invoked again, yielding
`env.recordAgain`. -/
def handleVoiceTurn (env : Env) (m : Metrics) (audioData : Option ℕ) :
    TurnResult :=
  match audioData with
  | none => handleVoiceRest env m env.recordAgain .recording [.calledRecord]
  | some a => handleVoiceRest env m (some a) .idle []

/-- User's mode selection in `wait_for_user_input`, after the
invalid-choice reprompt loop has resolved: `v` carries the result of the
`record_push_to_talk` call made inside `wait_for_user_input` (`none` is
the Python `None` a cancelled capture returns), `t` carries the raw
typed line. -/
inductive Choice where
  | v (captured : Option ℕ)
  | t (raw : String)
  | e
deriving Repr, DecidableEq

/-- What `wait_for_user_input` returns to the run loop. -/
inductive InputMode where
  | voice (captured : Option ℕ)
  | text (input : String)
  | exitSelected
deriving Repr, DecidableEq

/-- `wait_for_user_input` (orchestrator.py lines 102-133): voice mode
records immediately; text mode strips the line and treats `/exit` as
exit. -/
def waitForUserInput : Choice → InputMode
  | .v cap => .voice cap
  | .t raw => if pyStrip raw = "/exit" then .exitSelected else .text (pyStrip raw)
  | .e => .exitSelected

/-- Loop-carried state of `run`: the metrics, the `self.state` field and
the `should_exit` flag. -/
structure LoopState where
  metrics : Metrics
  state : State
  shouldExit : Bool
deriving Repr, DecidableEq

/-- One iteration of the `run` loop (orchestrator.py lines 76-97): set
state to `IDLE`, obtain the input mode, dispatch to the turn handler,
and catch any exception the handler re-raised via `handle_error`
(which shows the error and resets the state to `IDLE`). -/
def runIteration (env : Env) (ls : LoopState) (choice : Choice) :
    LoopState × List Event :=
  match waitForUserInput choice with
  | .exitSelected => ({ metrics := ls.metrics, state := .idle, shouldExit := true }, [])
  | .voice cap =>
      let r := handleVoiceTurn env ls.metrics cap
      match r.exn with
      | some e =>
          ({ metrics := handleError r.metrics, state := .idle, shouldExit := false },
           r.events ++ [.showedError e])
      | none =>
          ({ metrics := r.metrics, state := r.state, shouldExit := false }, r.events)
  | .text s =>
      let r := handleTextTurn env ls.metrics s
      match r.exn with
      | some e =>
          ({ metrics := handleError r.metrics, state := .idle, shouldExit := false },
           r.events ++ [.showedError e])
      | none =>
          ({ metrics := r.metrics, state := r.state, shouldExit := false }, r.events)

/-- Stage-time samples of one completed turn, as passed to
`_update_metrics`. -/
structure StageTimes where
  stt : ℚ
  agent : ℚ
  tts : ℚ
  total : ℚ
deriving Repr, DecidableEq

/-- A sequence of completed turns: fold `_update_metrics` over the
samples in order. -/
def recordTurns (m : Metrics) (l : List StageTimes) : Metrics :=
  l.foldl (fun m t => updateMetrics m t.stt t.agent t.tts t.total) m

/-! ### Push-to-talk recorder (`src/audio/recorder.py`)

The two listener threads (pynput key events, sounddevice callback) and
the polling loop of `record_push_to_talk` are modelled by one
interleaved event script observed in order. -/

/-- An observable event during one `record_push_to_talk` call: key
events seen by the pynput listener, an audio callback delivering `n`
mono samples, or one 0.01 s polling interval elapsing. -/
inductive CapEvent where
  | pressQ
  | pressCtrlR
  | releaseCtrlR
  | pressOther
  | audioChunk (n : ℕ)
  | tick
deriving Repr, DecidableEq

/-- Outcome of the initial wait loop (recorder.py lines 63-70): quit
observed first, trigger observed first, or the script ends with the
loop still blocked. -/
inductive TriggerWait where
  | quit (rest : List CapEvent)
  | triggered (rest : List CapEvent)
  | blocked
deriving Repr, DecidableEq

/-- The wait loop `while not is_recording and not quit_requested`:
a `q` key press sets `quit_requested`, a Right-Ctrl press sets
`is_recording`; releases are ignored while not recording, and no audio
callback runs because the stream is not open yet. -/
def waitForTrigger : List CapEvent → TriggerWait
  | [] => .blocked
  | e :: rest =>
      match e with
      | .pressQ => .quit rest
      | .pressCtrlR => .triggered rest
      | _ => waitForTrigger rest

/-- Mutable state during the recording loop: the `is_recording` and
`quit_requested` flags, elapsed polling ticks, and the accumulated
chunk sizes. -/
structure CapState where
  isRec : Bool
  quitReq : Bool
  elapsed : ℕ
  chunks : List ℕ
deriving Repr, DecidableEq

/-- `RECORD_MAX_SECONDS` (10 s) expressed in 0.01 s polling ticks. -/
def RECORD_MAX_TICKS : ℕ := 1000

/-- The recording loop (recorder.py lines 72-87) with the concurrent
key listener and audio callback folded into the script: it stops when
Right Ctrl is released, `q` is pressed, or the elapsed ticks reach the
bound; chunks are appended only while `is_recording` holds. -/
def recordLoop : CapState → List CapEvent → CapState
  | s, [] => s
  | s, e :: rest =>
      if ¬ s.isRec ∨ s.quitReq then s
      else
        let s' : CapState :=
          match e with
          | .pressQ => { s with quitReq := true, isRec := false }
          | .releaseCtrlR => { s with isRec := false }
          | .audioChunk n => { s with chunks := s.chunks ++ [n] }
          | .tick =>
              if RECORD_MAX_TICKS ≤ s.elapsed + 1 then
                { s with elapsed := s.elapsed + 1, isRec := false }
              else { s with elapsed := s.elapsed + 1 }
          | _ => s
        recordLoop s' rest

/-- Outcome of one capture call: `result = none` means the call never
returns on this script; `some none` is Python `None` (cancelled);
`some (some len)` is a buffer of `len` mono samples.  `deviceOpens`
counts how often the `sd.InputStream` context was entered. -/
structure CaptureOutcome where
  result : Option (Option ℕ)
  deviceOpens : ℕ
deriving Repr, DecidableEq

/-- `record_push_to_talk` (recorder.py lines 19-102): wait for trigger
or quit; on quit return `None` with the stream never opened; otherwise
open the stream exactly once, run the recording loop, and either return
`None` (quit during recording) or the concatenation of the accumulated
chunks (an empty accumulation gives a zero-length buffer). -/
def recordPushToTalk (script : List CapEvent) : CaptureOutcome :=
  match waitForTrigger script with
  | .blocked => { result := none, deviceOpens := 0 }
  | .quit _ => { result := some none, deviceOpens := 0 }
  | .triggered rest =>
      let fin := recordLoop { isRec := true, quitReq := false, elapsed := 0, chunks := [] } rest
      if fin.quitReq then { result := some none, deviceOpens := 1 }
      else { result := some (some fin.chunks.sum), deviceOpens := 1 }

/-- The property "the quit key is observed before the trigger key is
ever pressed" over a capture script. -/
def quitBeforeTrigger : List CapEvent → Bool
  | [] => false
  | .pressQ :: _ => true
  | .pressCtrlR :: _ => false
  | _ :: rest => quitBeforeTrigger rest

/-! ### Helper lemmas about the metrics accumulator -/

theorem updateMetrics_total_turns (m : Metrics) (s a t tot : ℚ) :
    (updateMetrics m s a t tot).total_turns = m.total_turns + 1 := rfl

theorem natCastQ_add_one_ne_zero (n : ℕ) : ((n : ℚ) + 1) ≠ 0 := by
  positivity

theorem updateMetrics_avg_stt_mul (m : Metrics) (s a t tot : ℚ) :
    (updateMetrics m s a t tot).avg_stt_time * ((m.total_turns : ℚ) + 1)
      = m.avg_stt_time * m.total_turns + s := by
  simp only [updateMetrics]
  rw [div_mul_cancel₀ _ (natCastQ_add_one_ne_zero m.total_turns)]

theorem updateMetrics_avg_agent_mul (m : Metrics) (s a t tot : ℚ) :
    (updateMetrics m s a t tot).avg_agent_time * ((m.total_turns : ℚ) + 1)
      = m.avg_agent_time * m.total_turns + a := by
  simp only [updateMetrics]
  rw [div_mul_cancel₀ _ (natCastQ_add_one_ne_zero m.total_turns)]

theorem updateMetrics_avg_tts_mul (m : Metrics) (s a t tot : ℚ) :
    (updateMetrics m s a t tot).avg_tts_time * ((m.total_turns : ℚ) + 1)
      = m.avg_tts_time * m.total_turns + t := by
  simp only [updateMetrics]
  rw [div_mul_cancel₀ _ (natCastQ_add_one_ne_zero m.total_turns)]

theorem updateMetrics_avg_total_mul (m : Metrics) (s a t tot : ℚ) :
    (updateMetrics m s a t tot).avg_total_time * ((m.total_turns : ℚ) + 1)
      = m.avg_total_time * m.total_turns + tot := by
  simp only [updateMetrics]
  rw [div_mul_cancel₀ _ (natCastQ_add_one_ne_zero m.total_turns)]

theorem recordTurns_cons (m : Metrics) (x : StageTimes) (xs : List StageTimes) :
    recordTurns m (x :: xs) = recordTurns (updateMetrics m x.stt x.agent x.tts x.total) xs := rfl

theorem recordTurns_total_turns (m : Metrics) (l : List StageTimes) :
    (recordTurns m l).total_turns = m.total_turns + l.length := by
  induction l generalizing m with
  | nil => rfl
  | cons x xs ih =>
      rw [recordTurns_cons, ih, updateMetrics_total_turns]
      simp [Nat.add_assoc, Nat.add_comm 1]

theorem recordTurns_weighted (m : Metrics) (l : List StageTimes) :
    (recordTurns m l).avg_stt_time * ((recordTurns m l).total_turns : ℚ)
        = m.avg_stt_time * m.total_turns + (l.map StageTimes.stt).sum ∧
    (recordTurns m l).avg_agent_time * ((recordTurns m l).total_turns : ℚ)
        = m.avg_agent_time * m.total_turns + (l.map StageTimes.agent).sum ∧
    (recordTurns m l).avg_tts_time * ((recordTurns m l).total_turns : ℚ)
        = m.avg_tts_time * m.total_turns + (l.map StageTimes.tts).sum ∧
    (recordTurns m l).avg_total_time * ((recordTurns m l).total_turns : ℚ)
        = m.avg_total_time * m.total_turns + (l.map StageTimes.total).sum := by
  induction l generalizing m with
  | nil => simp [recordTurns]
  | cons x xs ih =>
      have h := ih (updateMetrics m x.stt x.agent x.tts x.total)
      rw [recordTurns_cons]
      have hcast : (((updateMetrics m x.stt x.agent x.tts x.total).total_turns : ℕ) : ℚ)
          = (m.total_turns : ℚ) + 1 := by
        rw [updateMetrics_total_turns]; push_cast; ring
      refine ⟨?_, ?_, ?_, ?_⟩
      · rw [h.1]
        rw [show (updateMetrics m x.stt x.agent x.tts x.total).avg_stt_time
              * (((updateMetrics m x.stt x.agent x.tts x.total).total_turns : ℕ) : ℚ)
            = m.avg_stt_time * m.total_turns + x.stt from by
          rw [hcast]; exact updateMetrics_avg_stt_mul m x.stt x.agent x.tts x.total]
        simp; ring
      · rw [h.2.1]
        rw [show (updateMetrics m x.stt x.agent x.tts x.total).avg_agent_time
              * (((updateMetrics m x.stt x.agent x.tts x.total).total_turns : ℕ) : ℚ)
            = m.avg_agent_time * m.total_turns + x.agent from by
          rw [hcast]; exact updateMetrics_avg_agent_mul m x.stt x.agent x.tts x.total]
        simp; ring
      · rw [h.2.2.1]
        rw [show (updateMetrics m x.stt x.agent x.tts x.total).avg_tts_time
              * (((updateMetrics m x.stt x.agent x.tts x.total).total_turns : ℕ) : ℚ)
            = m.avg_tts_time * m.total_turns + x.tts from by
          rw [hcast]; exact updateMetrics_avg_tts_mul m x.stt x.agent x.tts x.total]
        simp; ring
      · rw [h.2.2.2]
        rw [show (updateMetrics m x.stt x.agent x.tts x.total).avg_total_time
              * (((updateMetrics m x.stt x.agent x.tts x.total).total_turns : ℕ) : ℚ)
            = m.avg_total_time * m.total_turns + x.total from by
          rw [hcast]; exact updateMetrics_avg_total_mul m x.stt x.agent x.tts x.total]
        simp; ring

/-- On every path on which `handle_voice_turn` lets an exception escape
(the `except` re-raise), the metrics dictionary is untouched:
`_update_metrics` was not reached. -/
theorem handleVoiceRest_raised_metrics (env : Env) (m : Metrics) (audio : Option ℕ)
    (st0 : State) (evs0 : List Event) :
    (handleVoiceRest env m audio st0 evs0).exn ≠ none →
    (handleVoiceRest env m audio st0 evs0).metrics = m := by
  unfold handleVoiceRest
  repeat' split
  all_goals intro h
  all_goals try rfl
  all_goals try simp at h
  all_goals (
    rename_i audio len h1 x1 text heq1 h2 x2 y heq
    by_cases hc : (classifyAndExecuteIntent env text).1.1 = "" <;>
      simp [hc] at h ⊢)

theorem handleVoiceTurn_raised_metrics (env : Env) (m : Metrics) (cap : Option ℕ) :
    (handleVoiceTurn env m cap).exn ≠ none → (handleVoiceTurn env m cap).metrics = m := by
  unfold handleVoiceTurn
  cases cap with
  | none => exact handleVoiceRest_raised_metrics env m env.recordAgain .recording [.calledRecord]
  | some a => exact handleVoiceRest_raised_metrics env m (some a) .idle []

/-- One run-loop iteration around a voice turn whose handler re-raised:
the exception is caught, `handle_error` runs, the state is `IDLE` and
the loop continues. -/
theorem runIteration_voice_raised (env : Env) (ls : LoopState) (cap : Option ℕ)
    (e : String) (h : (handleVoiceTurn env ls.metrics cap).exn = some e) :
    runIteration env ls (.v cap)
      = ({ metrics := handleError (handleVoiceTurn env ls.metrics cap).metrics,
           state := .idle, shouldExit := false },
         (handleVoiceTurn env ls.metrics cap).events ++ [.showedError e]) := by
  unfold runIteration waitForUserInput
  simp [h]

/-! ### Concrete oracle environments used in witnesses -/

/-- Oracle environment in which every collaborator succeeds. -/
def envOk : Env :=
  { classifierRaw := .ok ⟨"next_class", [], 1, false, ""⟩, askTopicAnswer := "",
    exec := fun _ => .ok "answer", transcribeResult := .ok "hello",
    speakResult := .ok (), recordAgain := none,
    sttTime := 0, agentTime := 0, ttsTime := 0, totalTime := 0 }

/-- Oracle environment in which the transcriber raises. -/
def envSttFail : Env :=
  { envOk with transcribeResult := .error "Whisper engine failure" }

/-- Oracle environment in which the task executor raises. -/
def envExecFail : Env :=
  { envOk with exec := fun _ => .error "boom" }

/-! ### Claim theorems -/

/-- C6: after any sequence of n recorded turns, each running average
(stt, agent, tts, total) equals the exact arithmetic mean of the n
samples recorded for that stage — each record step computes
`avg' = (avg*n + sample)/(n+1)` — and `total_turns` equals n. -/
theorem c6_running_averages (l : List StageTimes) (hl : ¬ l = []) :
    (recordTurns initMetrics l).total_turns = l.length ∧
    (recordTurns initMetrics l).avg_stt_time = (l.map StageTimes.stt).sum / l.length ∧
    (recordTurns initMetrics l).avg_agent_time = (l.map StageTimes.agent).sum / l.length ∧
    (recordTurns initMetrics l).avg_tts_time = (l.map StageTimes.tts).sum / l.length ∧
    (recordTurns initMetrics l).avg_total_time = (l.map StageTimes.total).sum / l.length ∧
    (∀ (m : Metrics) (s a t tot : ℚ),
      (updateMetrics m s a t tot).avg_total_time
        = (m.avg_total_time * m.total_turns + tot) / ((m.total_turns : ℚ) + 1)) := by
  have htot : (recordTurns initMetrics l).total_turns = l.length := by
    rw [recordTurns_total_turns]; simp [initMetrics]
  have hlen : ((l.length : ℕ) : ℚ) ≠ 0 :=
    Nat.cast_ne_zero.mpr (fun h => hl (List.length_eq_zero.mp h))
  have hw := recordTurns_weighted initMetrics l
  rw [htot] at hw
  simp only [initMetrics] at hw
  refine ⟨htot, ?_, ?_, ?_, ?_, fun m s a t tot => rfl⟩
  · rw [eq_div_iff hlen]; simpa using hw.1
  · rw [eq_div_iff hlen]; simpa using hw.2.1
  · rw [eq_div_iff hlen]; simpa using hw.2.2.1
  · rw [eq_div_iff hlen]; simpa using hw.2.2.2

/-- Witness for C6 at the two-turn sequence `[(1,2,3,4), (3, 4, 5, 6)]`:
the total-time average is the mean 5. -/
theorem c6_running_averages_witness :
    (recordTurns initMetrics [⟨1, 2, 3, 4⟩, ⟨3, 4, 5, 6⟩]).total_turns = 2 ∧
    (recordTurns initMetrics [⟨1, 2, 3, 4⟩, ⟨3, 4, 5, 6⟩]).avg_total_time = 5 := by
  have h := c6_running_averages [⟨1, 2, 3, 4⟩, ⟨3, 4, 5, 6⟩] (by simp)
  refine ⟨by simpa using h.1, ?_⟩
  rw [h.2.2.2.2.1]
  norm_num

/-- C3 counterexample: one errored turn (the transcriber raises inside a
voice turn); the run loop counts the error but `total_turns` stays 0,
not 1 as the claim requires after one completed-or-errored turn. -/
theorem c3_counterexample :
    (runIteration envSttFail ⟨initMetrics, .idle, false⟩ (.v (some 16000))).1.metrics.errors = 1 ∧
    ¬ (runIteration envSttFail ⟨initMetrics, .idle, false⟩
        (.v (some 16000))).1.metrics.total_turns = 1 := by
  decide

/-- C3 (amended): `total_turns` increases by exactly 1 per turn that
reaches `_update_metrics`, so after k such turns it equals k; an
errored turn leaves `total_turns` unchanged (only `errors` is
incremented by `handle_error`). -/
theorem c3_amended (m : Metrics) (l : List StageTimes) (env : Env)
    (cap : Option ℕ) (s a t tot : ℚ) :
    (updateMetrics m s a t tot).total_turns = m.total_turns + 1 ∧
    (recordTurns initMetrics l).total_turns = l.length ∧
    ((handleVoiceTurn env m cap).exn ≠ none →
      (handleVoiceTurn env m cap).metrics.total_turns = m.total_turns) ∧
    (handleError m).total_turns = m.total_turns ∧
    (handleError m).errors = m.errors + 1 := by
  refine ⟨rfl, ?_, ?_, rfl, rfl⟩
  · rw [recordTurns_total_turns]; simp [initMetrics]
  · intro h
    rw [handleVoiceTurn_raised_metrics env m cap h]

/-- Witness for C3 (amended) at one errored voice turn on the failing
transcriber. -/
theorem c3_amended_witness :
    (updateMetrics initMetrics 1 2 3 4).total_turns = 0 + 1 ∧
    (handleVoiceTurn envSttFail initMetrics (some 16000)).metrics.total_turns = 0 :=
  ⟨(c3_amended initMetrics [] envSttFail (some 16000) 1 2 3 4).1,
   (c3_amended initMetrics [] envSttFail (some 16000) 1 2 3 4).2.2.1 (by decide)⟩

/-- C9: on every capture call whose script observes the quit key before
the trigger key is ever pressed, `record_push_to_talk` returns
Cancelled (Python `None`) and the audio input device is opened zero
times. -/
theorem c9_quit_before_trigger (script : List CapEvent)
    (h : quitBeforeTrigger script = true) :
    recordPushToTalk script = { result := some none, deviceOpens := 0 } := by
  induction script with
  | nil => exact Bool.noConfusion h
  | cons e rest ih =>
      cases e with
      | pressQ => rfl
      | pressCtrlR => exact Bool.noConfusion h
      | releaseCtrlR => exact ih h
      | pressOther => exact ih h
      | audioChunk n => exact ih h
      | tick => exact ih h

/-- Witness for C9: quitting on the second key event, before any
trigger press. -/
theorem c9_quit_before_trigger_witness :
    quitBeforeTrigger [CapEvent.pressOther, CapEvent.pressQ] = true ∧
    recordPushToTalk [CapEvent.pressOther, CapEvent.pressQ]
      = { result := some none, deviceOpens := 0 } :=
  ⟨rfl, c9_quit_before_trigger [CapEvent.pressOther, CapEvent.pressQ] rfl⟩

theorem getParam_setParam (ps : List (String × String)) (k v : String) :
    getParam (setParam ps k v) k = some v := by
  unfold getParam setParam
  rw [List.find?_cons_of_pos _ (by simp)]
  rfl

/-- C2 counterexample: intent `topic_research` with no `topic` key and
`needs_clarification` unset dispatches the research task with the
hard-coded default topic "AI Agents" — the claim says such a call
never yields Dispatch, regardless of the flag. -/
theorem c2_counterexample :
    routeIntent "research something" ⟨"topic_research", [], 9/10, false, ""⟩ ""
      = .dispatch (.researchTopic "AI Agents") := by
  rfl

/-- C2 (amended): for `topic_research` with no `topic` key the outcome
is a clarification only when `needs_clarification` is set — the
classifier's question verbatim when non-empty, else a router prompt for
the topic, aborting when the user supplies no answer and dispatching
with the collected answer otherwise; with the flag unset the call
dispatches with the default topic "AI Agents". -/
theorem c2_amended (c : Classification) (u a : String)
    (hi : c.intent = "topic_research") (ht : getParam c.params "topic" = none) :
    (c.needs_clarification = false →
      routeIntent u c a = .dispatch (.researchTopic "AI Agents")) ∧
    (c.needs_clarification = true → ¬ c.clarification_question = "" →
      routeIntent u c a = .clarificationShown c.clarification_question) ∧
    (c.needs_clarification = true → c.clarification_question = "" → a = "" →
      routeIntent u c a = .topicPromptAborted) ∧
    (c.needs_clarification = true → c.clarification_question = "" → ¬ a = "" →
      routeIntent u c a = .dispatch (.researchTopic a)) := by
  refine ⟨fun h => ?_, fun h hq => ?_, fun h hq ha => ?_, fun h hq ha => ?_⟩
  · simp [routeIntent, hi, ht, h]
  · simp [routeIntent, hi, ht, h, hq]
  · simp [routeIntent, hi, ht, h, hq, ha]
  · simp [routeIntent, hi, ht, h, hq, ha, getParam_setParam]

/-- Witness for C2 (amended): flag set with an empty classifier
question; the user answers the router prompt with "llms" and the call
dispatches with that topic. -/
theorem c2_amended_witness :
    routeIntent "x" ⟨"topic_research", [], 1, true, ""⟩ "llms"
      = .dispatch (.researchTopic "llms") :=
  (c2_amended ⟨"topic_research", [], 1, true, ""⟩ "x" "llms" rfl rfl).2.2.2
    rfl rfl (by decide)

/-- C5 counterexample: a zero-confidence classification with recognized
intent `weekly_plan` is routed to the weekly-plan task, not to the
NextClass fallback the claim requires for low confidence. -/
theorem c5_counterexample :
    routeIntent "x" ⟨"weekly_plan", [], 0, false, ""⟩ ""
        = .dispatch .weeklyPlan ∧
    ¬ routeIntent "x" ⟨"weekly_plan", [], 0, false, ""⟩ ""
        = .dispatch .nextClass := by
  decide

/-- C5 (amended): a classification whose intent string is outside the
five recognized intents is routed by the orchestrator's final fallback
to the NextClass task (when no classifier clarification question
intervenes); the classifier itself, however, normalizes unrecognized
intents to `help` before they reach routing; and confidence is never
consulted — routing is identical for every confidence value. -/
theorem c5_amended (c : Classification) (u a : String) (q : ℚ) :
    (¬ c.intent ∈ recognizedIntents →
      (c.needs_clarification = true → c.clarification_question = "") →
      routeIntent u c a = .dispatch .nextClass) ∧
    (¬ c.intent ∈ recognizedIntents → (validateIntent c).intent = "help") ∧
    routeIntent u { c with confidence := q } a = routeIntent u c a := by
  refine ⟨fun hnr hq => ?_, fun hnr => ?_, rfl⟩
  · simp only [recognizedIntents, List.mem_cons, List.mem_singleton, not_or] at hnr
    obtain ⟨h1, h2, h3, h4, h5⟩ := hnr
    cases hb : c.needs_clarification with
    | false => simp [routeIntent, h1, h2, h3, h4, h5, hb]
    | true => simp [routeIntent, h1, h2, h3, h4, h5, hb, hq hb]
  · simp [validateIntent, hnr]

/-- Witness for C5 (amended) at the unrecognized intent string
"course_gossip". -/
theorem c5_amended_witness :
    routeIntent "x" ⟨"course_gossip", [], 1, false, ""⟩ "" = .dispatch .nextClass ∧
    (validateIntent ⟨"course_gossip", [], 1, false, ""⟩).intent = "help" :=
  ⟨(c5_amended ⟨"course_gossip", [], 1, false, ""⟩ "x" "" 0).1 (by decide)
      (fun _ => rfl),
   (c5_amended ⟨"course_gossip", [], 1, false, ""⟩ "x" "" 0).2.1 (by decide)⟩

/-- C8: an `assignments` turn always dispatches with the track from
`params.get('track', 'Tech')` — a missing key silently defaults to
"Tech" with no prompt — and `track_assignments` coerces any track
outside Tech/Analyst to "Tech" before the crew runs; neither a missing
nor an invalid track yields an error or a clarification. -/
theorem c8_assignments_track (c : Classification) (u a : String)
    (hi : c.intent = "assignments")
    (hq : c.needs_clarification = true → c.clarification_question = "") :
    routeIntent u c a
      = .dispatch (.assignments ((getParam c.params "track").getD "Tech")) ∧
    (getParam c.params "track" = none →
      routeIntent u c a = .dispatch (.assignments "Tech")) ∧
    (∀ tr, trackAssignmentsTrack tr = "Tech" ∨ trackAssignmentsTrack tr = "Analyst") ∧
    (∀ tr, ¬ tr = "Tech" → ¬ tr = "Analyst" → trackAssignmentsTrack tr = "Tech") := by
  have hmain : routeIntent u c a
      = .dispatch (.assignments ((getParam c.params "track").getD "Tech")) := by
    cases hb : c.needs_clarification with
    | false => simp [routeIntent, hi, hb]
    | true => simp [routeIntent, hi, hb, hq hb]
  refine ⟨hmain, fun ht => ?_, fun tr => ?_, fun tr h1 h2 => ?_⟩
  · rw [hmain, ht]
    rfl
  · by_cases h : tr = "Tech" ∨ tr = "Analyst"
    · rcases h with h | h
      · exact Or.inl (by simp [trackAssignmentsTrack, h])
      · exact Or.inr (by simp [trackAssignmentsTrack, h])
    · exact Or.inl (by simp [trackAssignmentsTrack, h])
  · simp [trackAssignmentsTrack, h1, h2]

/-- Witness for C8: an explicit invalid track "Invalid" dispatches and
is coerced to "Tech"; a missing track defaults to "Tech". -/
theorem c8_assignments_track_witness :
    routeIntent "track my work" ⟨"assignments", [("track", "Invalid")], 1, false, ""⟩ ""
      = .dispatch (.assignments "Invalid") ∧
    trackAssignmentsTrack "Invalid" = "Tech" ∧
    routeIntent "track my work" ⟨"assignments", [], 1, false, ""⟩ ""
      = .dispatch (.assignments "Tech") :=
  ⟨(c8_assignments_track ⟨"assignments", [("track", "Invalid")], 1, false, ""⟩
      "track my work" "" rfl (fun _ => rfl)).1,
   (c8_assignments_track ⟨"assignments", [("track", "Invalid")], 1, false, ""⟩
      "track my work" "" rfl (fun _ => rfl)).2.2.2 "Invalid" (by decide) (by decide),
   (c8_assignments_track ⟨"assignments", [], 1, false, ""⟩
      "track my work" "" rfl (fun _ => rfl)).2.1 rfl⟩

end MMA

namespace MMA

/-- Oracle environment whose classifier yields the `help` intent. -/
def envHelp : Env :=
  { envOk with classifierRaw := .ok ⟨"help", [], 1, false, ""⟩ }

/-- C1: evaluation of the code at the failing input.  A capture
cancelled by the quit key returns Python `None` (and `envOk.recordAgain
= none` models the retried capture also being cancelled); the run loop
then does NOT terminate: `handle_voice_turn(audio_data=None)` starts a
second capture (`calledRecord`), `len(None)` raises `TypeError`, the
generic handler counts an error, and the loop continues at `Idle` —
the engine never reaches `Exit`, contradicting the claimed
`Recording → Exit` transition. -/
theorem c1_cancelled_capture_no_exit :
    (recordPushToTalk [CapEvent.pressQ]).result = some envOk.recordAgain ∧
    (recordPushToTalk [CapEvent.pressQ]).deviceOpens = 0 ∧
    (runIteration envOk ⟨initMetrics, .idle, false⟩ (.v none)).1.shouldExit = false ∧
    ¬ (runIteration envOk ⟨initMetrics, .idle, false⟩ (.v none)).1.state = .exit ∧
    (runIteration envOk ⟨initMetrics, .idle, false⟩ (.v none)).1.state = .idle ∧
    (runIteration envOk ⟨initMetrics, .idle, false⟩ (.v none)).1.metrics.errors = 1 ∧
    (runIteration envOk ⟨initMetrics, .idle, false⟩ (.v none)).1.metrics.total_turns = 0 ∧
    Event.calledRecord ∈ (runIteration envOk ⟨initMetrics, .idle, false⟩ (.v none)).2 ∧
    ¬ Event.calledTranscribe ∈ (runIteration envOk ⟨initMetrics, .idle, false⟩ (.v none)).2 ∧
    Event.showedError "TypeError: object of type NoneType has no len()"
      ∈ (runIteration envOk ⟨initMetrics, .idle, false⟩ (.v none)).2 := by
  decide

/-- C4 counterexample: a task-execution failure is caught inside
`classify_and_execute_intent`: the error message is shown, but the
errors counter stays 0 (the claim requires it to increase by exactly 1
for every stage-level failure) and the turn completes into the metrics
update. -/
theorem c4_counterexample :
    Event.showedError "Error executing task: boom"
      ∈ (runIteration envExecFail ⟨initMetrics, .idle, false⟩ (.t "next class")).2 ∧
    (runIteration envExecFail ⟨initMetrics, .idle, false⟩
        (.t "next class")).1.metrics.errors = 0 ∧
    (runIteration envExecFail ⟨initMetrics, .idle, false⟩
        (.t "next class")).1.metrics.total_turns = 1 := by
  decide

/-- C4 (amended): transcription and synthesis failures escape the turn
handler and are caught at the run-loop boundary — error shown, counted
once in `errors`, state back to `Idle`, loop continues; classification
failures degrade to the `help` fallback without raising; but a
task-execution failure is caught inside the intent handler: its message
is shown, `errors` is NOT incremented, and the turn completes and
records metrics. -/
theorem c4_amended (env : Env) (m : Metrics) (cap : Option ℕ) (len : ℕ)
    (e msg u tx resp : String) (t : TaskCall) :
    (env.transcribeResult = .error e → ¬ len = 0 →
      (handleVoiceTurn env m (some len)).exn = some e) ∧
    (¬ len = 0 → env.transcribeResult = .ok tx → ¬ pyStrip tx = "" →
      (classifyAndExecuteIntent env tx).1.1 = resp → ¬ resp = "" →
      env.speakResult = .error e →
      (handleVoiceTurn env m (some len)).exn = some e) ∧
    ((handleVoiceTurn env m cap).exn = some e →
      ((runIteration env ⟨m, .idle, false⟩ (.v cap)).1.metrics.errors = m.errors + 1 ∧
       (runIteration env ⟨m, .idle, false⟩ (.v cap)).1.metrics.total_turns = m.total_turns ∧
       (runIteration env ⟨m, .idle, false⟩ (.v cap)).1.state = .idle ∧
       (runIteration env ⟨m, .idle, false⟩ (.v cap)).1.shouldExit = false ∧
       Event.showedError e ∈ (runIteration env ⟨m, .idle, false⟩ (.v cap)).2)) ∧
    (classify (.error e) = classifyFallback) ∧
    (¬ pyStrip u = "" →
      routeIntent u (classify env.classifierRaw) env.askTopicAnswer = .dispatch t →
      env.exec t = .error msg →
      ((handleTextTurn env m u).exn = none ∧
       (handleTextTurn env m u).metrics.errors = m.errors ∧
       (handleTextTurn env m u).metrics.total_turns = m.total_turns + 1 ∧
       Event.showedError ("Error executing task: " ++ msg)
         ∈ (handleTextTurn env m u).events)) := by
  refine ⟨fun htr hlen => ?_, fun hlen htr htx hresp hne hsp => ?_, fun hexn => ?_, rfl,
    fun hu hroute hexec => ?_⟩
  · simp [handleVoiceTurn, handleVoiceRest, hlen, htr]
  · simp [handleVoiceTurn, handleVoiceRest, hlen, htr, htx, hresp, hne, hsp]
  · have hraised := runIteration_voice_raised env ⟨m, .idle, false⟩ cap e hexn
    have hm := handleVoiceTurn_raised_metrics env m cap
      (by rw [hexn]; exact Option.some_ne_none e)
    rw [hraised]
    refine ⟨?_, ?_, rfl, rfl, by simp⟩
    · simp [handleError, hm]
    · simp [handleError, hm]
  · simp [handleTextTurn, hu, classifyAndExecuteIntent, hroute, hexec, updateMetrics]

/-- Witness for C4 (amended): a raising transcriber produces a raised
turn counted at the boundary, and a raising executor leaves the error
counter at 0. -/
theorem c4_amended_witness :
    (handleVoiceTurn envSttFail initMetrics (some 160)).exn
      = some "Whisper engine failure" ∧
    (runIteration envSttFail ⟨initMetrics, .idle, false⟩
        (.v (some 160))).1.metrics.errors = 0 + 1 ∧
    (handleTextTurn envExecFail initMetrics "next class").metrics.errors = 0 :=
  ⟨(c4_amended envSttFail initMetrics (some 160) 160 "Whisper engine failure"
      "boom" "next class" "hello" "answer" .nextClass).1 rfl (by decide),
   ((c4_amended envSttFail initMetrics (some 160) 160 "Whisper engine failure"
      "boom" "next class" "hello" "answer" .nextClass).2.2.1
     ((c4_amended envSttFail initMetrics (some 160) 160 "Whisper engine failure"
        "boom" "next class" "hello" "answer" .nextClass).1 rfl (by decide))).1,
   ((c4_amended envExecFail initMetrics (some 160) 160 "e" "boom" "next class"
      "hello" "answer" .nextClass).2.2.2.2 (by decide) (by decide) rfl).2.1⟩

/-- C7: a zero-length voice buffer and an empty or whitespace-only text
input are each reported as recoverable errors: the handler returns
before the transcriber (voice) or the classifier (text) is invoked, the
metrics — including the errors counter — are untouched, and the loop
returns to `Idle`. -/
theorem c7_empty_input (env : Env) (m : Metrics) (u : String)
    (hu : pyStrip u = "") :
    handleVoiceTurn env m (some 0)
      = { metrics := m, state := .idle,
          events := [.showedError "No audio recorded. Please try again."],
          exn := none } ∧
    ¬ Event.calledTranscribe ∈ (handleVoiceTurn env m (some 0)).events ∧
    handleTextTurn env m u
      = { metrics := m, state := .idle,
          events := [.showedError "Empty input. Please try again."],
          exn := none } ∧
    ¬ Event.calledClassify ∈ (handleTextTurn env m u).events ∧
    (runIteration env ⟨m, .idle, false⟩ (.v (some 0))).1
      = { metrics := m, state := .idle, shouldExit := false } ∧
    (runIteration env ⟨m, .idle, false⟩ (.t u)).1
      = { metrics := m, state := .idle, shouldExit := false } := by
  have hv : handleVoiceTurn env m (some 0)
      = { metrics := m, state := .idle,
          events := [.showedError "No audio recorded. Please try again."],
          exn := none } := by
    simp [handleVoiceTurn, handleVoiceRest]
  have htxt : handleTextTurn env m u
      = { metrics := m, state := .idle,
          events := [.showedError "Empty input. Please try again."],
          exn := none } := by
    simp [handleTextTurn, hu]
  refine ⟨hv, by rw [hv]; simp, htxt, by rw [htxt]; simp, ?_, ?_⟩
  · simp [runIteration, waitForUserInput, hv]
  · have h0 : handleTextTurn env m ""
        = { metrics := m, state := .idle,
            events := [.showedError "Empty input. Please try again."],
            exn := none } := rfl
    simp [runIteration, waitForUserInput, hu, h0]

/-- Witness for C7 at a whitespace-only text input and the zero-length
buffer. -/
theorem c7_empty_input_witness :
    handleTextTurn envOk initMetrics "   "
      = { metrics := initMetrics, state := .idle,
          events := [.showedError "Empty input. Please try again."],
          exn := none } ∧
    (runIteration envOk ⟨initMetrics, .idle, false⟩ (.v (some 0))).1
      = { metrics := initMetrics, state := .idle, shouldExit := false } :=
  ⟨(c7_empty_input envOk initMetrics "   " (by decide)).2.2.1,
   (c7_empty_input envOk initMetrics "   " (by decide)).2.2.2.2.1⟩

/-- C10: a turn whose routing outcome is Help or NeedsClarification
returns an empty response and executes no task, yet it is still
recorded in metrics: `total_turns` increments by 1 and an agent-time
sample of 0.0 is folded into the running average. -/
theorem c10_noop_turns_recorded (env : Env) (m : Metrics) (u : String)
    (hu : ¬ pyStrip u = "")
    (h : (∃ b, routeIntent u (classify env.classifierRaw) env.askTopicAnswer
            = .helpShown b) ∨
         (∃ q, routeIntent u (classify env.classifierRaw) env.askTopicAnswer
            = .clarificationShown q)) :
    (handleTextTurn env m u).metrics = updateMetrics m 0 0 0 env.totalTime ∧
    (handleTextTurn env m u).metrics.total_turns = m.total_turns + 1 ∧
    (handleTextTurn env m u).metrics.avg_agent_time
      = (m.avg_agent_time * m.total_turns + 0) / ((m.total_turns : ℚ) + 1) ∧
    (∀ t, ¬ Event.calledExecute t ∈ (handleTextTurn env m u).events) := by
  rcases h with ⟨b, hb⟩ | ⟨q, hq⟩
  · have ht : handleTextTurn env m u
        = { metrics := updateMetrics m 0 0 0 env.totalTime, state := .thinking,
            events := [.calledClassify, .showedHelp b], exn := none } := by
      simp [handleTextTurn, hu, classifyAndExecuteIntent, hb]
    rw [ht]
    exact ⟨rfl, rfl, rfl, fun t => by simp⟩
  · have ht : handleTextTurn env m u
        = { metrics := updateMetrics m 0 0 0 env.totalTime, state := .thinking,
            events := [.calledClassify, .showedClarification q], exn := none } := by
      simp [handleTextTurn, hu, classifyAndExecuteIntent, hq]
    rw [ht]
    exact ⟨rfl, rfl, rfl, fun t => by simp⟩

/-- Witness for C10 at an explicit `help` turn. -/
theorem c10_noop_turns_recorded_witness :
    (handleTextTurn envHelp initMetrics "help").metrics.total_turns = 0 + 1 ∧
    (handleTextTurn envHelp initMetrics "help").metrics
      = updateMetrics initMetrics 0 0 0 envHelp.totalTime :=
  ⟨(c10_noop_turns_recorded envHelp initMetrics "help" (by decide)
      (Or.inl ⟨true, by decide⟩)).2.1,
   (c10_noop_turns_recorded envHelp initMetrics "help" (by decide)
      (Or.inl ⟨true, by decide⟩)).1⟩

end MMA
